import Mathlib

/-!
Verification development for the micro-printviz repository.

The repository consists of two Python scripts:
* `plot_logs.py` — a live log-file plotter (reader `read_data`, column resolver
  `check_col` / `organize_cols`, axis-limit updater inside `plot_update`, control
  loop `run`);
* `pico_demo.py` — a MicroPython demo emitting comma-separated sample lines.

This file gives a shallow embedding of the relevant functions.  Python's
exception behaviour is made explicit: a computation either returns a value or
raises one of the exception kinds that can actually occur, and the warning
lines printed by the resolver are collected as a list of strings.
-/

namespace MicroPrintviz

/-- The Python exception kinds reachable in the embedded code. -/
inductive PyError where
  | valueError
  | indexError
  | keyError
  | attributeError
  | assertionError
  | emptyDataError
  | fileNotFoundError
deriving DecidableEq, Repr

/-- A Python computation: a result or a raised exception, together with the
warning lines printed on stdout along the way. -/
def PyM (α : Type) : Type := Except PyError α × List String

/-- Sequencing of embedded Python computations: an exception aborts the rest;
warnings accumulate in print order. -/
def PyM.bind {α β : Type} : PyM α → (α → PyM β) → PyM β
  | (Except.error e, w), _ => (Except.error e, w)
  | (Except.ok a, w), f => ((f a).1, w ++ (f a).2)

instance : Monad PyM where
  pure a := (Except.ok a, [])
  bind := PyM.bind

/-- `raise e` in Python. -/
def PyM.raise {α : Type} (e : PyError) : PyM α := (Except.error e, [])

/-- A `print` of a warning line, executed only when `b` is true. -/
def PyM.warnIf (b : Bool) (s : String) : PyM Unit :=
  (Except.ok (), if b then [s] else [])

/-- An unconditional `print` of a warning line. -/
def PyM.warn (s : String) : PyM Unit := (Except.ok (), [s])

/-- A pandas `DataFrame` at the level of detail the claims need: column names,
the (integer) index labels, and the rows as raw comma-separated fields.  Numeric
conversion of cells is irrelevant to every claim about shapes and names and is
not modelled. -/
structure Frame where
  cols : List String
  idx : List Nat
  rows : List (List String)
deriving DecidableEq, Repr

/-- `data.columns` — raises `AttributeError` when `data` is `None`. -/
def columnsOfM (data : Option Frame) : PyM (List String) :=
  match data with
  | none => PyM.raise PyError.attributeError
  | some f => pure f.cols

/-- `data.reset_index(names="_index")` (plot_logs.py line 145): turns the index
labels into a leading `"_index"` column.  Raises `AttributeError` on `None`. -/
def reset_indexM (data : Option Frame) : PyM Frame :=
  match data with
  | none => PyM.raise PyError.attributeError
  | some f =>
      pure { cols := "_index" :: f.cols,
             idx := List.range f.rows.length,
             rows := (f.idx.zip f.rows).map (fun p => Nat.repr p.1 :: p.2) }

/-! ### String helpers (Python `str.split(",")`, `str.strip`, `int(str)`) -/

/-- Auxiliary accumulator for comma splitting. -/
def splitCommaAux : List Char → List Char → List String
  | [], acc => [String.mk acc.reverse]
  | c :: cs, acc =>
      if c = ',' then String.mk acc.reverse :: splitCommaAux cs []
      else splitCommaAux cs (c :: acc)

/-- Python `s.split(",")`. -/
def splitComma (s : String) : List String := splitCommaAux s.data []

/-- Strip leading and trailing whitespace from a character list. -/
def stripChars (cs : List Char) : List Char :=
  ((cs.dropWhile Char.isWhitespace).reverse.dropWhile Char.isWhitespace).reverse

/-- Python `s.strip()`. -/
def pstrip (s : String) : String := String.mk (stripChars s.data)

/-- Decimal value of a digit list. -/
def digitsVal (cs : List Char) : Nat :=
  cs.foldl (fun a c => a * 10 + (c.toNat - 48)) 0

/-- A nonempty all-digit character list. -/
def isDigits (cs : List Char) : Bool :=
  !cs.isEmpty && cs.all Char.isDigit

/-- Python `int(s)` on a string: strips whitespace, accepts an optional sign
followed by digits, and raises `ValueError` (here: `none`) otherwise.  (Python
additionally permits underscore digit grouping, which no claim exercises.) -/
def pyInt (s : String) : Option Int :=
  match stripChars s.data with
  | '-' :: ds => if isDigits ds then some (-(digitsVal ds : Int)) else none
  | '+' :: ds => if isDigits ds then some ((digitsVal ds : Int)) else none
  | ds => if isDigits ds then some ((digitsVal ds : Int)) else none

/-- Positional lookup `cols[i]` on a pandas `Index`: supports negative indices
from the end and raises `IndexError` out of range.  It never raises
`KeyError`. -/
def indexGet (cols : List String) (i : Int) : Except PyError String :=
  if 0 ≤ i ∧ i < (cols.length : Int) then
    Except.ok (cols.getD i.toNat "")
  else if -(cols.length : Int) ≤ i ∧ i < 0 then
    Except.ok (cols.getD (i + (cols.length : Int)).toNat "")
  else
    Except.error PyError.indexError

/-! ### plot_logs.py: reader and column resolver -/

/-- The last `n` elements of a list (pandas `DataFrame.tail(n)`). -/
def tailN {α : Type _} (n : Nat) (l : List α) : List α := l.drop (l.length - n)

/-- Models `pd.read_csv` applied to the file's lines (the CSV library is a
black box collaborator per the spec): blank lines are skipped; the first
remaining line is the comma-separated header, every further line a
comma-separated data row; the index labels the data rows `0,1,…`.  A file with
no non-blank lines raises `EmptyDataError`.  (Duplicate-header mangling and
numeric cell conversion are outside the claims' scope.) -/
def pd_read_csv (lines : List String) : Except PyError Frame :=
  match lines.filter (fun l => l != "") with
  | [] => Except.error PyError.emptyDataError
  | h :: rs =>
      Except.ok { cols := splitComma h,
                  idx := List.range rs.length,
                  rows := rs.map splitComma }

/-- `read_data` (plot_logs.py lines 79–93).  The file is `none` when no file
exists at the path, in which case `pd.read_csv` raises `FileNotFoundError`;
the `except` clause catches only `pd.errors.EmptyDataError`.  Column names are
stripped, a zero-row table becomes the sentinel `none`, and otherwise the last
`n_max` rows are returned (keeping their original index labels, as
`DataFrame.tail` does). -/
def read_data (file : Option (List String)) (n_max : Nat) :
    Except PyError (Option Frame) :=
  match file with
  | none => Except.error PyError.fileNotFoundError
  | some lines =>
      match pd_read_csv lines with
      | Except.error PyError.emptyDataError => Except.ok none
      | Except.error e => Except.error e
      | Except.ok data =>
          let data := { data with cols := data.cols.map pstrip }
          if data.rows.length = 0 then Except.ok none
          else Except.ok (some { cols := data.cols,
                                 idx := tailN n_max data.idx,
                                 rows := tailN n_max data.rows })

/-- `check_col` (plot_logs.py lines 108–118).  A literal column name wins;
otherwise the selector is converted with `int` and looked up positionally.
Faithful to the source, the `except` clause catches only `KeyError`, while
`int(col)` raises `ValueError` and the positional lookup raises `IndexError`,
so those two escape. -/
def check_col (data : Option Frame) (col : String) (warn : Bool) :
    PyM (Option String) := do
  let cols ← columnsOfM data
  if col ∈ cols then
    pure (some col)
  else
    match pyInt col with
    | none => PyM.raise PyError.valueError
    | some i =>
        match indexGet cols i with
        | Except.ok c => pure (some c)
        | Except.error PyError.keyError => do
            PyM.warnIf warn ("Warning: Cannot find column " ++ col)
            pure none
        | Except.error e => PyM.raise e

/-- One selector-list block of `organize_cols` (plot_logs.py lines 122–125 and
127–130): resolve every selector, keep the successes, and collapse an empty
result to `None`. -/
def resolveOpt (data : Option Frame) (cs : Option (List String)) (warn : Bool) :
    PyM (Option (List String)) :=
  match cs with
  | none => pure none
  | some l => do
      let rs ← l.mapM (fun c => check_col data c warn)
      let l2 := rs.filterMap id
      pure (if l2.length > 0 then some l2 else none)

/-- `list(zip(cycle(x_cols), y_cols))` (plot_logs.py line 144): the `j`-th pair
is `(xs[j % xs.length], ys[j])`; an empty `xs` makes `cycle` an exhausted
iterator, so `zip` yields nothing. -/
def zip_cycle (xs ys : List String) : List (String × String) :=
  if xs.isEmpty then []
  else (List.range ys.length).map
    (fun j => (xs.getD (j % xs.length) "", ys.getD j ""))

/-- `organize_cols` (plot_logs.py lines 121–147).  Faithful to the source:
the count-mismatch block discards the x-selectors only when `warn` is true
(the `and warn` is part of the `if` condition there), the `assert` raises
`AssertionError` when violated, and each attribute access on a `None` data
argument raises `AttributeError`. -/
def organize_cols (data : Option Frame) (x0 y0 : Option (List String))
    (warn : Bool) : PyM (Frame × List (String × String)) := do
  let x1 ← resolveOpt data x0 warn
  let y1 ← resolveOpt data y0 warn
  let x2 ←
    match x1, y1 with
    | some xs, some ys =>
        if (xs.length ≠ ys.length ∧ xs.length > 1) ∧ warn = true then do
          PyM.warn ("Warning: Number of x-cols must match the number of y-cols.")
          PyM.warn ("Warning: Ignoring x-cols.")
          pure (none : Option (List String))
        else
          pure x1
    | _, _ => pure x1
  let xs3 ←
    match x2 with
    | none => pure ["_index"]
    | some xs => pure xs
  let ys3 ←
    match y1 with
    | none => columnsOfM data
    | some ys => pure ys
  let _ ←
    if xs3.length ≤ ys3.length then pure ()
    else PyM.raise PyError.assertionError
  let pairs := zip_cycle xs3 ys3
  let d2 ← reset_indexM data
  pure (d2, pairs)

/-! ### plot_logs.py: axis-limit update inside `plot_update` (lines 213–237)

The limits are rationals; the decimal literals `0.2`, `0.9`, `0.05` of the
source are the exact rationals `1/5`, `9/10`, `1/20` here (the claims C5 and C9
concern the exact-arithmetic behaviour of these formulas). -/

/-- The y-limit block of `plot_update` (lines 219–226).  `dx` is the
normalising span passed in by the caller; faithful to the source, the margins
use the y-span `dy` while both relative discrepancies are divided by `dx`. -/
def update_ylim (ycur : ℚ × ℚ) (y_min y_max dx lim_margin : ℚ) : ℚ × ℚ :=
  let dy := y_max - y_min
  let y_min_target := y_min - dy * lim_margin
  let y_max_target := y_max + dy * lim_margin
  let low_rel := (y_min_target - ycur.1) / dx
  let high_rel := (ycur.2 - y_max_target) / dx
  if low_rel > 1/5 ∨ low_rel < 0 ∨ high_rel > 1/5 ∨ high_rel < 0 then
    (ycur.1 + (y_min_target - ycur.1) * (9/10),
     ycur.2 + (y_max_target - ycur.2) * (9/10))
  else ycur

/-- The x-limit block of `plot_update` (lines 228–237): identical in shape to
the y-block, with the x-span `dx` used both for the margins and for the
normalisation. -/
def update_xlim (xcur : ℚ × ℚ) (x_min x_max lim_margin : ℚ) : ℚ × ℚ :=
  let dx := x_max - x_min
  let x_min_target := x_min - dx * lim_margin
  let x_max_target := x_max + dx * lim_margin
  let low_rel := (x_min_target - xcur.1) / dx
  let high_rel := (xcur.2 - x_max_target) / dx
  if low_rel > 1/5 ∨ low_rel < 0 ∨ high_rel > 1/5 ∨ high_rel < 0 then
    (xcur.1 + (x_min_target - xcur.1) * (9/10),
     xcur.2 + (x_max_target - xcur.2) * (9/10))
  else xcur

/-- The combined limit update of one `plot_update` cycle, given the finite data
bounding box: the y-block receives `dx = x_max - x_min` as its normalising
span, exactly as in the source (lines 216, 222–223). -/
def plot_update_lims (xcur ycur : ℚ × ℚ) (x_min x_max y_min y_max lim_margin : ℚ) :
    (ℚ × ℚ) × (ℚ × ℚ) :=
  (update_xlim xcur x_min x_max lim_margin,
   update_ylim ycur y_min y_max (x_max - x_min) lim_margin)

/-- One axis-rescaling cycle as a state transformer on the pair of current
limit pairs, with the data bounding box held constant. -/
def lims_step (x_min x_max y_min y_max lim_margin : ℚ)
    (s : (ℚ × ℚ) × (ℚ × ℚ)) : (ℚ × ℚ) × (ℚ × ℚ) :=
  plot_update_lims s.1 s.2 x_min x_max y_min y_max lim_margin

/-! ### pico_demo.py: the emitted line -/

/-- Left-pad a string with zeros to length `k`. -/
def padZeros (s : String) (k : Nat) : String :=
  String.mk (List.replicate (k - s.length) '0') ++ s

/-- C `printf`-style `%f` conversion with a minimum field `width` and a given
`prec`ision, on an exact rational sample value: round `|q|·10^prec` to an
integer (half away from zero; no tie arises at any input used here), print
integer part, point, `prec` fraction digits, and pad with spaces to `width`. -/
def formatFixed (width prec : Nat) (q : ℚ) : String :=
  let sNum : Nat := q.num.natAbs * 10 ^ prec
  let n : Nat := (2 * sNum + q.den) / (2 * q.den)
  let ip := n / 10 ^ prec
  let fp := n % 10 ^ prec
  let body :=
    Nat.repr ip ++ (if prec = 0 then "" else "." ++ padZeros (Nat.repr fp) prec)
  let signed := (if q.num < 0 then "-" else "") ++ body
  (if signed.length < width then
      String.mk (List.replicate (width - signed.length) ' ')
    else "") ++ signed

/-- The data line printed by pico_demo.py line 37:
`print("%3f,%.3f,%.3f,%.3f" % (x, y, x_s, y_s))`.  Per C format semantics the
first conversion `%3f` has field width 3 and the DEFAULT precision 6, while the
other three `%.3f` conversions have precision 3. -/
def demo_line (x y x_s y_s : ℚ) : String :=
  formatFixed 3 6 x ++ "," ++ formatFixed 0 3 y ++ ","
    ++ formatFixed 0 3 x_s ++ "," ++ formatFixed 0 3 y_s

/-- The header printed once at startup by pico_demo.py line 22. -/
def demo_header : String := "x(t), y(t), x_s(t), y_s(t)"

/-- One iteration of the streaming phase of `run` (plot_logs.py lines 270–272):
a non-blocking read followed by the warning-free re-resolve.  (The subsequent
`plot_update` call is guarded by `if data is None: return` and is irrelevant to
whether the iteration raises before reaching it.) -/
def streaming_resolve (file : Option (List String))
    (x0 y0 : Option (List String)) (n_max : Nat) :
    PyM (Frame × List (String × String)) :=
  match read_data file n_max with
  | Except.error e => (Except.error e, [])
  | Except.ok d => organize_cols d x0 y0 false

/-! ### Spec-side definitions (claim C5)

Claim C5 describes the rescaling trigger with each axis normalised by its OWN
data span.  The following two definitions transcribe the claim's words, to be
compared against `update_ylim` / `update_xlim` above. -/

/-- The claim's trigger: the discrepancy between current and target limits,
normalised by `span`, exceeds `0.2` in either direction or overshoots past the
target. -/
def spec_out_of_band (cur : ℚ × ℚ) (tmin tmax span : ℚ) : Prop :=
  (tmin - cur.1) / span > 1/5 ∨ (tmin - cur.1) / span < 0 ∨
  (cur.2 - tmax) / span > 1/5 ∨ (cur.2 - tmax) / span < 0

instance (cur : ℚ × ℚ) (tmin tmax span : ℚ) :
    Decidable (spec_out_of_band cur tmin tmax span) := by
  unfold spec_out_of_band; infer_instance

/-- The claim's movement: each limit moves 90% of the way from its current
value toward its target. -/
def spec_nudged (cur : ℚ × ℚ) (tmin tmax : ℚ) : ℚ × ℚ :=
  (cur.1 + (tmin - cur.1) * (9/10), cur.2 + (tmax - cur.2) * (9/10))

/-! ## Basic lemmas about `PyM` -/

theorem PyM.bind_eq {α β : Type} (m : PyM α) (f : α → PyM β) :
    (m >>= f) = PyM.bind m f := rfl

theorem PyM.pure_eq {α : Type} (a : α) :
    (pure a : PyM α) = (Except.ok a, []) := rfl

theorem PyM.bind_ok {α β : Type} (a : α) (w : List String) (f : α → PyM β) :
    PyM.bind (Except.ok a, w) f = ((f a).1, w ++ (f a).2) := rfl

/-! ## Claim C1 -/

/-- C1 (code bug): the claim says every streaming iteration in which the log
read yields the no-data sentinel completes without raising and retries.  In the
code the sentinel `None` is passed straight into `organize_cols`, which
dereferences it (`data.columns`, first inside `check_col` when selectors are
given, otherwise at the `y_cols = data.columns` default), raising
`AttributeError`.  Evaluated here on an empty log file, with default selectors
and with explicit selectors. -/
theorem c1_sentinel_iteration_raises :
    read_data (some []) 100 = Except.ok none ∧
    streaming_resolve (some []) none none 100
      = (Except.error PyError.attributeError, []) ∧
    streaming_resolve (some []) (some ["0"]) (some ["1"]) 100
      = (Except.error PyError.attributeError, []) :=
  ⟨rfl, rfl, rfl⟩

/-! ## Claim C2 -/

/-- C2 (code bug): the claim says an unresolvable selector is dropped with a
warning and the resolver never raises, e.g. `y=["b","z"]` over columns
`a,b` resolves to `y=["b"]`.  In the code `int("z")` raises `ValueError` (and
an out-of-range index raises `IndexError`), while the `except` clause catches
only `KeyError`, so the exception escapes and no warning is printed. -/
theorem c2_unresolvable_selector_raises :
    check_col (some ⟨["a", "b"], [0], [["1", "2"]]⟩) "z" true
      = (Except.error PyError.valueError, []) ∧
    organize_cols (some ⟨["a", "b"], [0], [["1", "2"]]⟩) none (some ["b", "z"]) true
      = (Except.error PyError.valueError, []) ∧
    check_col (some ⟨["a", "b"], [0], [["1", "2"]]⟩) "5" true
      = (Except.error PyError.indexError, []) :=
  ⟨rfl, rfl, rfl⟩

/-! ## Claim C3 -/

/-- C3 (code bug): the claim says the count-mismatch discard of the x-selectors
happens on every call, including the streaming re-resolve with warnings
disabled.  In the code the discard is inside
`if (len(x_cols) != len(y_cols) and len(x_cols)>1) and warn:`, so with
`warn=False` the mismatched x-selectors are kept and the subsequent
`assert(len(x_cols) <= len(y_cols))` fails, raising `AssertionError` — the
code violates its own assertion.  With `warn=True` the discard and the two
warnings do happen, confirming the claimed behaviour is the code's intent. -/
theorem c3_mismatch_discard_needs_warn :
    organize_cols (some ⟨["a", "b", "c"], [0], [["1", "2", "3"]]⟩)
        (some ["a", "c"]) (some ["b"]) false
      = (Except.error PyError.assertionError, []) ∧
    organize_cols (some ⟨["a", "b", "c"], [0], [["1", "2", "3"]]⟩)
        (some ["a", "c"]) (some ["b"]) true
      = (Except.ok (⟨["_index", "a", "b", "c"], [0], [["0", "1", "2", "3"]]⟩,
                    [("_index", "b")]),
         ["Warning: Number of x-cols must match the number of y-cols.",
          "Warning: Ignoring x-cols."]) :=
  ⟨rfl, rfl⟩

/-! ## Claim C4 -/

/-- C4 counterexample: for a path with no file, `read_data` does not return the
sentinel `None` — `pd.read_csv` raises `FileNotFoundError`, which the
`except pd.errors.EmptyDataError` clause does not catch. -/
theorem c4_counterexample :
    read_data none 100 = Except.error PyError.fileNotFoundError ∧
    read_data none 100 ≠ Except.ok none :=
  ⟨rfl, fun h => by simp [read_data] at h⟩

/-- C4 amended: for every bound, a missing file makes `read_data` raise
`FileNotFoundError`; the sentinel is returned only for an empty file or a file
with header-only content. -/
theorem c4_missing_file_raises (n_max : Nat) :
    read_data none n_max = Except.error PyError.fileNotFoundError ∧
    read_data (some []) n_max = Except.ok none ∧
    read_data (some ["x(t), y(t)"]) n_max = Except.ok none :=
  ⟨rfl, rfl, rfl⟩

/-! ## Claim C6 -/

/-- C6 (code bug): the claim (and the spec) say all four values are formatted
with `"%.3f"`.  The source format string is `"%3f,%.3f,%.3f,%.3f"`: its first
conversion lacks the dot, so `x` is printed with the default precision 6.
Evaluated at the sample values (1, 1, 1, 1).  The one-line CSV header does name
the four fields as claimed. -/
theorem c6_first_field_precision_bug :
    demo_line 1 1 1 1 = "1.000000,1.000,1.000,1.000" ∧
    demo_line 1 1 1 1 ≠ "1.000,1.000,1.000,1.000" ∧
    (splitComma demo_header).map pstrip = ["x(t)", "y(t)", "x_s(t)", "y_s(t)"] :=
  ⟨by decide, by decide, by decide⟩

/-! ## Claim C10 -/

/-- C10 (confirmed): literal column-name lookup takes precedence over the
positional-index interpretation: a selector equal to an existing column name
resolves to itself, with no warning and no exception. -/
theorem c10_name_precedence (f : Frame) (s : String) (warn : Bool)
    (h : s ∈ f.cols) :
    check_col (some f) s warn = (Except.ok (some s), []) := by
  simp only [check_col, columnsOfM, PyM.pure_eq, PyM.bind_eq, PyM.bind_ok]
  rw [if_pos h]
  rfl

/-- C10 witness: over columns `["a", "0"]` the selector `"0"` names an existing
column and resolves to itself, not to the first column `"a"` that the index
interpretation would give. -/
theorem c10_name_precedence_witness :
    "0" ∈ (⟨["a", "0"], [], []⟩ : Frame).cols ∧
    check_col (some ⟨["a", "0"], [], []⟩) "0" true
      = (Except.ok (some "0"), []) :=
  ⟨by decide, c10_name_precedence ⟨["a", "0"], [], []⟩ "0" true (by decide)⟩

/-! ## Claim C8 -/

/-- C8 (confirmed): with a resolved x-list of length `m ≥ 1` and a resolved
y-list of length `n ≥ m`, the pairing `list(zip(cycle(x_cols), y_cols))`
produces exactly `n` pairs, the `j`-th being `(x[j % m], y[j])`, and each
y-column appears exactly once (the second components are exactly `ys`). -/
theorem c8_cycle_pairing (xs ys : List String)
    (h1 : 1 ≤ xs.length) (h2 : xs.length ≤ ys.length) :
    (zip_cycle xs ys).length = ys.length ∧
    (zip_cycle xs ys).map Prod.snd = ys ∧
    ∀ j, j < ys.length →
      (zip_cycle xs ys).getD j ("", "")
        = (xs.getD (j % xs.length) "", ys.getD j "") := by
  have hne : xs.isEmpty = false := by
    cases xs with
    | nil => simp at h1
    | cons a l => rfl
  have hz : zip_cycle xs ys = (List.range ys.length).map
      (fun j => (xs.getD (j % xs.length) "", ys.getD j "")) := by
    unfold zip_cycle
    rw [hne]
    simp
  have hlen : (zip_cycle xs ys).length = ys.length := by
    rw [hz]; simp
  refine ⟨hlen, ?_, ?_⟩
  · apply List.ext_get
    · simp [hz]
    · intro n hn1 hn2
      simp only [List.get_eq_getElem, hz, List.getElem_map, List.getElem_range]
      exact List.getD_eq_getElem ys "" hn2
  · intro j hj
    rw [hz, List.getD_eq_getElem]
    · simp
    · simpa using hj

/-- C8 witness: the claim's example `x=["idx"]`, `y=["b","c"]` yields the pairs
`[(idx,b), (idx,c)]`. -/
theorem c8_cycle_pairing_witness :
    zip_cycle ["idx"] ["b", "c"] = [("idx", "b"), ("idx", "c")] ∧
    1 ≤ (["idx"] : List String).length ∧
    (["idx"] : List String).length ≤ (["b", "c"] : List String).length ∧
    ((zip_cycle ["idx"] ["b", "c"]).length = (["b", "c"] : List String).length ∧
     (zip_cycle ["idx"] ["b", "c"]).map Prod.snd = ["b", "c"] ∧
     ∀ j, j < (["b", "c"] : List String).length →
       (zip_cycle ["idx"] ["b", "c"]).getD j ("", "")
         = ((["idx"] : List String).getD (j % (["idx"] : List String).length) "",
            (["b", "c"] : List String).getD j "")) :=
  ⟨by decide, by decide, by decide,
   c8_cycle_pairing ["idx"] ["b", "c"] (by decide) (by decide)⟩

/-! ## Shared lemmas about the axis-limit update -/

/-- `update_ylim` written as a guarded nudge: the source's trigger condition is
exactly `spec_out_of_band` with the caller-supplied span, and the movement is
exactly `spec_nudged`. -/
theorem update_ylim_eq (c : ℚ × ℚ) (dmin dmax dx m : ℚ) :
    update_ylim c dmin dmax dx m =
      if spec_out_of_band c (dmin - (dmax - dmin) * m) (dmax + (dmax - dmin) * m) dx
      then spec_nudged c (dmin - (dmax - dmin) * m) (dmax + (dmax - dmin) * m)
      else c := rfl

/-- The duplicated x-block of `plot_update` is the y-block with the x-span
substituted for the normalising span. -/
theorem update_xlim_as_ylim (c : ℚ × ℚ) (a b m : ℚ) :
    update_xlim c a b m = update_ylim c a b (b - a) m := rfl

/-- If the 90%-nudge does not move the limits at all, both gaps are zero, so
the trigger condition cannot have held. -/
theorem spec_nudged_eq_self (c : ℚ × ℚ) (tmin tmax dx : ℚ)
    (h : spec_nudged c tmin tmax = c) :
    ¬ spec_out_of_band c tmin tmax dx := by
  have h1 : c.1 + (tmin - c.1) * (9/10) = c.1 := congrArg Prod.fst h
  have h2 : c.2 + (tmax - c.2) * (9/10) = c.2 := congrArg Prod.snd h
  have ha : tmin - c.1 = 0 := by linarith
  have hb : c.2 - tmax = 0 := by linarith
  unfold spec_out_of_band
  rw [ha, hb]
  norm_num

/-- Characterisation of one y-block update: the limits change exactly when the
trigger condition (normalised by the caller-supplied span) holds, and then they
move 90% of the way toward the targets. -/
theorem update_ylim_spec (c : ℚ × ℚ) (dmin dmax dx m : ℚ) :
    (update_ylim c dmin dmax dx m ≠ c ↔
      spec_out_of_band c (dmin - (dmax - dmin) * m) (dmax + (dmax - dmin) * m) dx) ∧
    (update_ylim c dmin dmax dx m ≠ c →
      update_ylim c dmin dmax dx m =
        spec_nudged c (dmin - (dmax - dmin) * m) (dmax + (dmax - dmin) * m)) := by
  rw [update_ylim_eq]
  by_cases h : spec_out_of_band c (dmin - (dmax - dmin) * m)
      (dmax + (dmax - dmin) * m) dx
  · rw [if_pos h]
    refine ⟨⟨fun _ => h, fun _ hc => ?_⟩, fun _ => rfl⟩
    exact spec_nudged_eq_self c _ _ dx hc h
  · rw [if_neg h]
    exact ⟨⟨fun hc => absurd rfl hc, fun hh => absurd hh h⟩, fun hc => absurd rfl hc⟩

/-- One update either leaves the limits unchanged or divides both gaps to the
targets by 10. -/
theorem update_ylim_gap (c : ℚ × ℚ) (dmin dmax dx m : ℚ) :
    update_ylim c dmin dmax dx m = c ∨
    ((dmin - (dmax - dmin) * m) - (update_ylim c dmin dmax dx m).1
        = ((dmin - (dmax - dmin) * m) - c.1) / 10 ∧
     (update_ylim c dmin dmax dx m).2 - (dmax + (dmax - dmin) * m)
        = (c.2 - (dmax + (dmax - dmin) * m)) / 10) := by
  rw [update_ylim_eq]
  by_cases h : spec_out_of_band c (dmin - (dmax - dmin) * m)
      (dmax + (dmax - dmin) * m) dx
  · right
    rw [if_pos h]
    unfold spec_nudged
    constructor <;> · simp only []; ring
  · left
    rw [if_neg h]

/-- When both gaps lie in `[0, dx/5]` the trigger condition is false and the
limits are left exactly unchanged. -/
theorem update_ylim_fix (c : ℚ × ℚ) (dmin dmax dx m : ℚ) (hdx : 0 < dx)
    (ha0 : 0 ≤ (dmin - (dmax - dmin) * m) - c.1)
    (ha1 : (dmin - (dmax - dmin) * m) - c.1 ≤ dx / 5)
    (hb0 : 0 ≤ c.2 - (dmax + (dmax - dmin) * m))
    (hb1 : c.2 - (dmax + (dmax - dmin) * m) ≤ dx / 5) :
    update_ylim c dmin dmax dx m = c := by
  have hcond : ¬ spec_out_of_band c (dmin - (dmax - dmin) * m)
      (dmax + (dmax - dmin) * m) dx := by
    unfold spec_out_of_band
    push_neg
    refine ⟨?_, ?_, ?_, ?_⟩
    · rw [div_le_iff₀ hdx]; linarith
    · exact div_nonneg ha0 hdx.le
    · rw [div_le_iff₀ hdx]; linarith
    · exact div_nonneg hb0 hdx.le
  rw [update_ylim_eq, if_neg hcond]

/-- Any rational is exceeded by `dx/5 · 10^N` for some `N`. -/
theorem arch10 (dx : ℚ) (hdx : 0 < dx) (q : ℚ) :
    ∃ N : ℕ, q < (dx / 5) * 10 ^ N := by
  obtain ⟨n, hn⟩ := exists_nat_gt (q / (dx / 5))
  refine ⟨n, ?_⟩
  have h10 : (n : ℚ) ≤ 10 ^ n := by
    calc (n : ℚ) ≤ 2 ^ n := by exact_mod_cast (Nat.lt_two_pow n).le
    _ ≤ 10 ^ n := pow_le_pow_left₀ (by norm_num) (by norm_num) n
  have hdx5 : 0 < dx / 5 := by positivity
  have hq : q / (dx / 5) < 10 ^ n := lt_of_lt_of_le hn h10
  calc q = (q / (dx / 5)) * (dx / 5) := by field_simp
  _ < 10 ^ n * (dx / 5) := mul_lt_mul_of_pos_right hq hdx5
  _ = (dx / 5) * 10 ^ n := by ring

/-- If neither current limit overshoots its target (both gaps nonnegative),
iterating one axis's update reaches, in finitely many cycles, a state that
every further cycle leaves exactly unchanged. -/
theorem update_ylim_iter_fix (dmin dmax dx m : ℚ) (hdx : 0 < dx) (c : ℚ × ℚ)
    (ha : 0 ≤ (dmin - (dmax - dmin) * m) - c.1)
    (hb : 0 ≤ c.2 - (dmax + (dmax - dmin) * m)) :
    ∃ N, ∀ n,
      (fun p => update_ylim p dmin dmax dx m)^[N + n] c
        = (fun p => update_ylim p dmin dmax dx m)^[N] c := by
  have key : ∀ n : ℕ,
      update_ylim ((fun p => update_ylim p dmin dmax dx m)^[n] c) dmin dmax dx m
          = (fun p => update_ylim p dmin dmax dx m)^[n] c ∨
      ((dmin - (dmax - dmin) * m) - ((fun p => update_ylim p dmin dmax dx m)^[n] c).1
          = ((dmin - (dmax - dmin) * m) - c.1) / 10 ^ n ∧
       ((fun p => update_ylim p dmin dmax dx m)^[n] c).2 - (dmax + (dmax - dmin) * m)
          = (c.2 - (dmax + (dmax - dmin) * m)) / 10 ^ n) := by
    intro n
    induction n with
    | zero => right; simp
    | succ n ih =>
        rcases ih with hfix | hgap
        · left
          rw [Function.iterate_succ_apply']
          show update_ylim (update_ylim _ dmin dmax dx m) dmin dmax dx m = _
          rw [hfix]
          exact hfix
        · rcases update_ylim_gap ((fun p => update_ylim p dmin dmax dx m)^[n] c)
              dmin dmax dx m with hfix2 | hg2
          · left
            rw [Function.iterate_succ_apply']
            show update_ylim (update_ylim _ dmin dmax dx m) dmin dmax dx m = _
            rw [hfix2]
            exact hfix2
          · right
            rw [Function.iterate_succ_apply']
            constructor
            · show (dmin - (dmax - dmin) * m)
                  - (update_ylim ((fun p => update_ylim p dmin dmax dx m)^[n] c)
                      dmin dmax dx m).1 = _
              rw [hg2.1, hgap.1, div_div, ← pow_succ]
            · show (update_ylim ((fun p => update_ylim p dmin dmax dx m)^[n] c)
                      dmin dmax dx m).2 - (dmax + (dmax - dmin) * m) = _
              rw [hg2.2, hgap.2, div_div, ← pow_succ]
  obtain ⟨N1, hN1⟩ := arch10 dx hdx ((dmin - (dmax - dmin) * m) - c.1)
  obtain ⟨N2, hN2⟩ := arch10 dx hdx (c.2 - (dmax + (dmax - dmin) * m))
  have hmono : ∀ (a : ℚ) (N N' : ℕ),
      a < (dx / 5) * 10 ^ N → N ≤ N' → a ≤ (dx / 5) * 10 ^ N' := by
    intro a N N' hN hle
    calc a ≤ (dx / 5) * 10 ^ N := hN.le
    _ ≤ (dx / 5) * 10 ^ N' := by
        apply mul_le_mul_of_nonneg_left _ (by positivity)
        exact pow_le_pow_right₀ (by norm_num) hle
  have hfixN : update_ylim ((fun p => update_ylim p dmin dmax dx m)^[N1 + N2] c)
      dmin dmax dx m = (fun p => update_ylim p dmin dmax dx m)^[N1 + N2] c := by
    rcases key (N1 + N2) with h | hgap
    · exact h
    · apply update_ylim_fix _ dmin dmax dx m hdx
      · rw [hgap.1]
        exact div_nonneg ha (by positivity)
      · rw [hgap.1, div_le_iff₀ (by positivity : (0:ℚ) < 10 ^ (N1 + N2))]
        have := hmono _ N1 (N1 + N2) hN1 (Nat.le_add_right _ _)
        linarith
      · rw [hgap.2]
        exact div_nonneg hb (by positivity)
      · rw [hgap.2, div_le_iff₀ (by positivity : (0:ℚ) < 10 ^ (N1 + N2))]
        have := hmono _ N2 (N1 + N2) hN2 (Nat.le_add_left _ _)
        linarith
  refine ⟨N1 + N2, ?_⟩
  intro n
  induction n with
  | zero => rfl
  | succ n ih =>
      rw [show N1 + N2 + (n + 1) = (N1 + N2 + n) + 1 from rfl,
          Function.iterate_succ_apply', ih]
      exact hfixN

/-- The combined limit step acts componentwise, the x-block being the y-block
formula at the x-data and the shared span `xmax - xmin`. -/
theorem lims_step_iterate (xmin xmax ymin ymax m : ℚ) (n : ℕ) (p q : ℚ × ℚ) :
    (lims_step xmin xmax ymin ymax m)^[n] (p, q)
      = ((fun r => update_ylim r xmin xmax (xmax - xmin) m)^[n] p,
         (fun r => update_ylim r ymin ymax (xmax - xmin) m)^[n] q) := by
  induction n with
  | zero => rfl
  | succ n ih =>
      rw [Function.iterate_succ_apply', ih, Function.iterate_succ_apply',
          Function.iterate_succ_apply']
      rfl

/-- `read_data` on an existing file, unfolded one step. -/
theorem read_data_some (lines : List String) (n_max : Nat) :
    read_data (some lines) n_max =
      match pd_read_csv lines with
      | Except.error PyError.emptyDataError => Except.ok none
      | Except.error e => Except.error e
      | Except.ok data =>
          let data2 : Frame :=
            { cols := data.cols.map pstrip, idx := data.idx, rows := data.rows }
          if data2.rows.length = 0 then Except.ok none
          else Except.ok (some { cols := data2.cols, idx := tailN n_max data2.idx,
                                 rows := tailN n_max data2.rows }) := rfl

/-! ## Claim C5 -/

/-- C5 counterexample: the claim normalises each axis by its own data span.
With x-data spanning `[0, 1]` and y-data spanning `[0, 100]` (margin `1/20`,
y-targets `(-5, 105)`), current y-limits `(-25, 105)` are within the claimed
per-axis band — the y-normalised discrepancies are `1/5 ≤ 0.2` and `0` — yet
the code, which divides the y-discrepancies by the X–span `dx = 1`, moves the
y-limits to `(-7, 105)`. -/
theorem c5_counterexample :
    (plot_update_lims (-1/20, 21/20) (-25, 105) 0 1 0 100 (1/20)).2 = (-7, 105) ∧
    ((-7 : ℚ), (105 : ℚ)) ≠ ((-25 : ℚ), (105 : ℚ)) ∧
    ¬ spec_out_of_band (-25, 105) (0 - (100 - 0) * (1/20)) (100 + (100 - 0) * (1/20))
        (100 - 0) := by
  refine ⟨?_, ?_, ?_⟩
  · show update_ylim (-25, 105) 0 100 (1 - 0) (1/20) = (-7, 105)
    rw [update_ylim_eq, if_pos]
    · unfold spec_nudged
      norm_num
    · unfold spec_out_of_band
      left
      norm_num
  · intro h
    rw [Prod.mk.injEq] at h
    norm_num at h
  · unfold spec_out_of_band
    push_neg
    norm_num

/-- C5 amended: in each update cycle, for each axis independently, the limits
change exactly when the discrepancy between current and target limits,
normalised by the X-data span `xmax - xmin` for BOTH axes (not by each axis's
own span), exceeds `0.2` in either direction or overshoots past the target;
and when they change, each limit moves 90% of the way toward its target. -/
theorem c5_amended (xcur ycur : ℚ × ℚ) (xmin xmax ymin ymax m : ℚ)
    (_hdx : 0 < xmax - xmin) :
    ((plot_update_lims xcur ycur xmin xmax ymin ymax m).2 ≠ ycur ↔
        spec_out_of_band ycur (ymin - (ymax - ymin) * m) (ymax + (ymax - ymin) * m)
          (xmax - xmin)) ∧
    ((plot_update_lims xcur ycur xmin xmax ymin ymax m).2 ≠ ycur →
        (plot_update_lims xcur ycur xmin xmax ymin ymax m).2 =
          spec_nudged ycur (ymin - (ymax - ymin) * m) (ymax + (ymax - ymin) * m)) ∧
    ((plot_update_lims xcur ycur xmin xmax ymin ymax m).1 ≠ xcur ↔
        spec_out_of_band xcur (xmin - (xmax - xmin) * m) (xmax + (xmax - xmin) * m)
          (xmax - xmin)) ∧
    ((plot_update_lims xcur ycur xmin xmax ymin ymax m).1 ≠ xcur →
        (plot_update_lims xcur ycur xmin xmax ymin ymax m).1 =
          spec_nudged xcur (xmin - (xmax - xmin) * m) (xmax + (xmax - xmin) * m)) := by
  have hy := update_ylim_spec ycur ymin ymax (xmax - xmin) m
  have hx := update_ylim_spec xcur xmin xmax (xmax - xmin) m
  exact ⟨hy.1, hy.2, hx.1, hx.2⟩

/-- C5 amended, witness at the unit bounding box with zero margin. -/
theorem c5_amended_witness :
    (0:ℚ) < 1 - 0 ∧
    (((plot_update_lims (0, 1) (0, 1) 0 1 0 1 0).2 ≠ (0, 1) ↔
        spec_out_of_band (0, 1) (0 - (1 - 0) * 0) (1 + (1 - 0) * 0) (1 - 0)) ∧
     ((plot_update_lims (0, 1) (0, 1) 0 1 0 1 0).2 ≠ (0, 1) →
        (plot_update_lims (0, 1) (0, 1) 0 1 0 1 0).2 =
          spec_nudged (0, 1) (0 - (1 - 0) * 0) (1 + (1 - 0) * 0)) ∧
     ((plot_update_lims (0, 1) (0, 1) 0 1 0 1 0).1 ≠ (0, 1) ↔
        spec_out_of_band (0, 1) (0 - (1 - 0) * 0) (1 + (1 - 0) * 0) (1 - 0)) ∧
     ((plot_update_lims (0, 1) (0, 1) 0 1 0 1 0).1 ≠ (0, 1) →
        (plot_update_lims (0, 1) (0, 1) 0 1 0 1 0).1 =
          spec_nudged (0, 1) (0 - (1 - 0) * 0) (1 + (1 - 0) * 0))) :=
  ⟨by norm_num, c5_amended (0, 1) (0, 1) 0 1 0 1 0 (by norm_num)⟩

/-! ## Claim C9 -/

/-- Closed form of the overshoot run: with the data box fixed at the unit
square and the lower y-limit starting above its target, every cycle fires and
the lower y-limit creeps toward `-1/20` without ever reaching it. -/
theorem lims_step_overshoot_form (n : ℕ) :
    (lims_step 0 1 0 1 (1/20))^[n] ((-1/20, 21/20), (0, 21/20))
      = ((-1/20, 21/20), (-1/20 + (1/20) * (1/10) ^ n, 21/20)) := by
  induction n with
  | zero => norm_num
  | succ n ih =>
      rw [Function.iterate_succ_apply', ih]
      have hx : update_ylim (-1/20, 21/20) 0 1 (1 - 0) (1/20) = (-1/20, 21/20) := by
        rw [update_ylim_eq, if_neg]
        unfold spec_out_of_band
        push_neg
        norm_num
      have hy : update_ylim (-1/20 + (1/20) * (1/10) ^ n, 21/20) 0 1 (1 - 0) (1/20)
          = (-1/20 + (1/20) * (1/10) ^ (n + 1), 21/20) := by
        rw [update_ylim_eq, if_pos]
        · unfold spec_nudged
          rw [Prod.mk.injEq]
          constructor
          · rw [pow_succ]
            ring
          · norm_num
        · unfold spec_out_of_band
          right; left
          simp only []
          rw [div_lt_iff₀ (by norm_num : (0:ℚ) < 1 - 0)]
          norm_num
      show (update_ylim (-1/20, 21/20) 0 1 (1 - 0) (1/20),
            update_ylim (-1/20 + (1/20) * (1/10) ^ n, 21/20) 0 1 (1 - 0) (1/20)) = _
      rw [hx, hy]

/-- C9 counterexample: with the data bounding box held constant (x and y data
in `[0, 1]`, margin `1/20`) and a start state whose lower y-limit `0` overshoots
its target `-1/20`, the relative discrepancy is negative at every cycle, so the
rescaling step moves the limits on every single cycle: in exact arithmetic no
cycle ever leaves the state unchanged, contradicting the claimed finite
convergence. -/
theorem c9_counterexample :
    ¬ ∃ N : ℕ, (lims_step 0 1 0 1 (1/20))^[N + 1] ((-1/20, 21/20), (0, 21/20))
        = (lims_step 0 1 0 1 (1/20))^[N] ((-1/20, 21/20), (0, 21/20)) := by
  rintro ⟨N, hN⟩
  rw [lims_step_overshoot_form (N + 1), lims_step_overshoot_form N] at hN
  have h1 : (-1/20 : ℚ) + (1/20) * (1/10) ^ (N + 1) = -1/20 + (1/20) * (1/10) ^ N := by
    have h := congrArg (fun s => s.2.1) hN
    simp at h
  have h2 : ((1:ℚ)/10) ^ N * (1/10) = (1/10) ^ N * 1 := by
    rw [mul_one, ← pow_succ]
    linarith
  have h3 : ((1:ℚ)/10) ^ N ≠ 0 := by positivity
  have := mul_left_cancel₀ h3 h2
  norm_num at this

/-- C9 amended: when the data bounding box is held constant with positive
x-span and the current limits do not overshoot their targets on any of the
four sides (all four gaps nonnegative), repeated update cycles reach, after
finitely many steps, a state that every further cycle leaves exactly
unchanged.  (With an overshoot the trigger's `< 0` branch fires forever and
the limits never stop moving — see the counterexample.) -/
theorem c9_amended (xmin xmax ymin ymax m : ℚ) (s0 : (ℚ × ℚ) × (ℚ × ℚ))
    (hdx : 0 < xmax - xmin)
    (hx1 : 0 ≤ (xmin - (xmax - xmin) * m) - s0.1.1)
    (hx2 : 0 ≤ s0.1.2 - (xmax + (xmax - xmin) * m))
    (hy1 : 0 ≤ (ymin - (ymax - ymin) * m) - s0.2.1)
    (hy2 : 0 ≤ s0.2.2 - (ymax + (ymax - ymin) * m)) :
    ∃ N, ∀ n, (lims_step xmin xmax ymin ymax m)^[N + n] s0
              = (lims_step xmin xmax ymin ymax m)^[N] s0 := by
  obtain ⟨Nx, hNx⟩ := update_ylim_iter_fix xmin xmax (xmax - xmin) m hdx s0.1 hx1 hx2
  obtain ⟨Ny, hNy⟩ := update_ylim_iter_fix ymin ymax (xmax - xmin) m hdx s0.2 hy1 hy2
  refine ⟨Nx + Ny, fun n => ?_⟩
  have hs0 : s0 = (s0.1, s0.2) := rfl
  rw [hs0, lims_step_iterate, lims_step_iterate]
  have ex : (fun r => update_ylim r xmin xmax (xmax - xmin) m)^[Nx + Ny + n] s0.1
      = (fun r => update_ylim r xmin xmax (xmax - xmin) m)^[Nx + Ny] s0.1 := by
    rw [show Nx + Ny + n = Nx + (Ny + n) from by ring, hNx (Ny + n), ← hNx Ny]
  have ey : (fun r => update_ylim r ymin ymax (xmax - xmin) m)^[Nx + Ny + n] s0.2
      = (fun r => update_ylim r ymin ymax (xmax - xmin) m)^[Nx + Ny] s0.2 := by
    rw [show Nx + Ny + n = Ny + (Nx + n) from by ring, hNy (Nx + n),
        show Nx + Ny = Ny + Nx from by ring, ← hNy Nx]
  rw [ex, ey]

/-- C9 amended, witness: unit data box, margin `1/20`, both axes' limits
`(-10, 10)` safely enclosing their targets. -/
theorem c9_amended_witness :
    (0:ℚ) < 1 - 0 ∧
    (0:ℚ) ≤ (0 - (1 - 0) * (1/20)) - (-10) ∧
    (0:ℚ) ≤ 10 - (1 + (1 - 0) * (1/20)) ∧
    (0:ℚ) ≤ (0 - (1 - 0) * (1/20)) - (-10) ∧
    (0:ℚ) ≤ 10 - (1 + (1 - 0) * (1/20)) ∧
    (∃ N, ∀ n,
      (lims_step 0 1 0 1 (1/20))^[N + n] ((-10, 10), (-10, 10))
        = (lims_step 0 1 0 1 (1/20))^[N] ((-10, 10), (-10, 10))) :=
  ⟨by norm_num, by norm_num, by norm_num, by norm_num, by norm_num,
   c9_amended 0 1 0 1 (1/20) ((-10, 10), (-10, 10)) (by norm_num) (by norm_num)
     (by norm_num) (by norm_num) (by norm_num)⟩

/-! ## Claim C7 -/

/-- `tail` returns at most `n` elements. -/
theorem tailN_length_le {α : Type _} (n : Nat) (l : List α) :
    (tailN n l).length ≤ n := by
  unfold tailN
  rw [List.length_drop]
  omega

/-- `tail` returns elements of the original list. -/
theorem tailN_subset {α : Type _} (n : Nat) (l : List α) :
    ∀ x ∈ tailN n l, x ∈ l := by
  intro x hx
  exact List.drop_subset _ _ hx

/-- C7 (confirmed): for every valid CSV input — at least one data line after
the header, every data line with exactly as many comma-separated fields as the
header — and every bound `n_max`, `read_data` returns a table whose column
names are the header names with surrounding whitespace trimmed (hence exactly
`k` of them), with at most `n_max` rows, namely the last rows of the file, each
of width `k`. -/
theorem c7_reader_shape (lines : List String) (n_max : Nat)
    (hdr : String) (rs : List String)
    (hsplit : lines.filter (fun l => l != "") = hdr :: rs)
    (hk : ∀ r ∈ rs, (splitComma r).length = (splitComma hdr).length)
    (hne : rs ≠ []) :
    ∃ f : Frame,
      read_data (some lines) n_max = Except.ok (some f) ∧
      f.cols = (splitComma hdr).map pstrip ∧
      f.cols.length = (splitComma hdr).length ∧
      f.rows.length ≤ n_max ∧
      f.rows = tailN n_max (rs.map splitComma) ∧
      ∀ r ∈ f.rows, r.length = (splitComma hdr).length := by
  refine ⟨⟨(splitComma hdr).map pstrip, tailN n_max (List.range rs.length),
          tailN n_max (rs.map splitComma)⟩, ?_, rfl, by simp, tailN_length_le _ _,
          rfl, ?_⟩
  · have hp : pd_read_csv lines
        = Except.ok ⟨splitComma hdr, List.range rs.length, rs.map splitComma⟩ := by
      unfold pd_read_csv
      rw [hsplit]
    have hlen0 : ¬ ((rs.map splitComma).length = 0) := by
      simp only [List.length_map]
      intro h
      exact hne (List.eq_nil_of_length_eq_zero h)
    rw [read_data_some, hp]
    simp only []
    rw [if_neg hlen0]
  · intro r hr
    obtain ⟨r0, hr0, hrr⟩ := List.mem_map.mp (tailN_subset _ _ r hr)
    rw [← hrr]
    exact hk r0 hr0

/-- C7 witness: the three-line log of the spec's end-to-end example with
`n_max = 1`. -/
theorem c7_reader_shape_witness :
    (["a, b", "1,2", "3,4"] : List String).filter (fun l => l != "")
      = "a, b" :: ["1,2", "3,4"] ∧
    (∀ r ∈ (["1,2", "3,4"] : List String),
      (splitComma r).length = (splitComma ("a, b")).length) ∧
    (["1,2", "3,4"] : List String) ≠ [] ∧
    (∃ f : Frame,
      read_data (some ["a, b", "1,2", "3,4"]) 1 = Except.ok (some f) ∧
      f.cols = (splitComma ("a, b")).map pstrip ∧
      f.cols.length = (splitComma ("a, b")).length ∧
      f.rows.length ≤ 1 ∧
      f.rows = tailN 1 ((["1,2", "3,4"] : List String).map splitComma) ∧
      ∀ r ∈ f.rows, r.length = (splitComma ("a, b")).length) :=
  ⟨by decide, by decide, by decide,
   c7_reader_shape ["a, b", "1,2", "3,4"] 1 ("a, b") ["1,2", "3,4"]
     (by decide) (by decide) (by decide)⟩

end MicroPrintviz
